import Mathlib

/-!
Shallow embedding of the MuLoom Metal renderer plugin
(`src/app/src-tauri/src/plugins/muloom_gpu.rs`) and proofs about it.

The embedding models:
* the capability-selection logic (`pick_surface_format` and the inline
  present-mode / alpha-mode selections in `run_renderer`),
* the surface reconfiguration routine `resize_surface`,
* one iteration of the render loop in `run_renderer` as a function from a
  loop state and a per-tick environment (window-size query results, frame
  acquisition outcome, clock reading) to a tick result recording the new
  state and the observable effects of the tick,
* the shared atomic signals and the window-event listener installed by
  `start_renderer`, and
* the startup window lookup in `start_renderer` together with the
  diagnostic reporting done by `init`.

Machine integers: the only arithmetic the code performs on its `u32` sizes
is `max` with 1 (no overflow possible), so sizes are `Nat`; the `u64` frame
counter is wrapped explicitly modulo `2 ^ 64` to mirror `wrapping_add`.
Fallible operations (`window.inner_size()`, the `Result` returns) are
modelled with `Except`.
-/

namespace MuloomGpu

/-- `wgpu::TextureFormat`, restricted to the two constructors the code
names, plus `other n` standing for any other advertised format. -/
inductive TextureFormat where
  | Bgra8UnormSrgb
  | Bgra8Unorm
  | other (n : Nat)
deriving DecidableEq

/-- `wgpu::PresentMode`. -/
inductive PresentMode where
  | AutoVsync
  | AutoNoVsync
  | Fifo
  | FifoRelaxed
  | Immediate
  | Mailbox
deriving DecidableEq

/-- `wgpu::CompositeAlphaMode`. -/
inductive CompositeAlphaMode where
  | Auto
  | Opaque
  | PreMultiplied
  | PostMultiplied
  | Inherit
deriving DecidableEq

/-- `pick_surface_format`: the first advertised format that is
`Bgra8UnormSrgb` or `Bgra8Unorm`, else the first advertised format, else
(empty capability list) `Bgra8Unorm`.  Mirrors
`formats.iter().copied().find(|f| matches!(f, Bgra8UnormSrgb | Bgra8Unorm))
 .unwrap_or_else(|| formats.get(0).copied().unwrap_or(Bgra8Unorm))`. -/
def pick_surface_format (formats : List TextureFormat) : TextureFormat :=
  match formats.find? (fun f => f == .Bgra8UnormSrgb || f == .Bgra8Unorm) with
  | some f => f
  | none =>
    match formats.head? with
    | some f => f
    | none => .Bgra8Unorm

/-- The inline present-mode selection in `run_renderer`: keep
`AutoNoVsync` when advertised; otherwise the first advertised mode that is
`Immediate` or `Mailbox`; otherwise `Fifo`. -/
def pick_present_mode (present_modes : List PresentMode) : PresentMode :=
  if PresentMode.AutoNoVsync ∈ present_modes then
    .AutoNoVsync
  else
    match present_modes.find? (fun mode => mode == .Immediate || mode == .Mailbox) with
    | some mode => mode
    | none => .Fifo

/-- The inline alpha-mode selection in `run_renderer`: the first advertised
mode that is `Opaque` or `Auto`; otherwise `Auto`. -/
def pick_alpha_mode (alpha_modes : List CompositeAlphaMode) : CompositeAlphaMode :=
  match alpha_modes.find? (fun mode => mode == .Opaque || mode == .Auto) with
  | some mode => mode
  | none => .Auto

/-- The fields of `wgpu::SurfaceConfiguration` the plugin reads or writes.
`usage` (always `RENDER_ATTACHMENT`), `view_formats` (always empty) and
`desired_maximum_frame_latency` (always 1) are compile-time constants in
the code and carry no state, so they are omitted. -/
structure SurfaceConfiguration where
  format : TextureFormat
  width : Nat
  height : Nat
  present_mode : PresentMode
  alpha_mode : CompositeAlphaMode
deriving DecidableEq

/-- The initial `SurfaceConfiguration` literal built in `run_renderer`
before the first forced `resize_surface` call: `width = 1`, `height = 1`,
selected format / present mode / alpha mode. -/
def init_config (format : TextureFormat) (present_mode : PresentMode)
    (alpha_mode : CompositeAlphaMode) : SurfaceConfiguration :=
  { format := format, width := 1, height := 1,
    present_mode := present_mode, alpha_mode := alpha_mode }

/-- `resize_surface`.  `inner_size` is the result of the fallible
`window.inner_size()` query (`.error` = query failed, absorbed by
`unwrap_or_else` into the currently configured size).  The returned `Bool`
records whether `surface.configure(device, config)` was called (the
device-side write).  The Rust function returns `Result<()>` and mutates
`config` through `&mut`; here the updated configuration is returned
alongside.  The function body has no fallible operation, mirrored by the
fact that both branches below produce `.ok`. -/
def resize_surface (inner_size : Except Unit (Nat × Nat))
    (config : SurfaceConfiguration) (force : Bool) :
    Except Unit (SurfaceConfiguration × Bool) :=
  let size : Nat × Nat :=
    match inner_size with
    | .ok s => s
    | .error _ => (config.width, config.height)
  let width := max size.1 1
  let height := max size.2 1
  if force || (width != config.width) || (height != config.height) then
    .ok ({ config with width := width, height := height }, true)
  else
    .ok (config, false)

/-- One element of a sequence of `resize_surface` calls: the query result
handed to it and its `force` argument.  The tracked state pairs the
current configuration with the dimensions most recently passed to
`surface.configure` (the last successfully applied configuration). -/
def resize_step (st : SurfaceConfiguration × (Nat × Nat))
    (call : Except Unit (Nat × Nat) × Bool) : SurfaceConfiguration × (Nat × Nat) :=
  match resize_surface call.1 st.1 call.2 with
  | .ok (c, true) => (c, (c.width, c.height))
  | .ok (c, false) => (c, st.2)
  | .error _ => st

/-- The C6 invariant: positive dimensions that coincide with the last
device-applied size. -/
def config_inv (st : SurfaceConfiguration × (Nat × Nat)) : Prop :=
  1 ≤ st.1.width ∧ 1 ≤ st.1.height ∧ (st.1.width, st.1.height) = st.2

/-- `wgpu::SurfaceError` as matched by the loop. -/
inductive SurfaceError where
  | Timeout
  | Outdated
  | Lost
  | OutOfMemory
deriving DecidableEq

/-- Outcome of `surface.get_current_texture()` for one tick.  The frame's
texture contents are irrelevant to every claim, so the success payload is
omitted. -/
inductive AcquireResult where
  | ok
  | err (e : SurfaceError)
deriving DecidableEq

/-- The state of one renderer instance: the two shared atomic flags
(`running`, `window_resized`) and the loop-local state of `run_renderer`
(current surface configuration, `frame_index : u64`, and the
`last_frame_time` origin, modelled as an abstract clock reading). -/
structure LoopState where
  running : Bool
  window_resized : Bool
  config : SurfaceConfiguration
  frame_index : Nat
  last_frame_time : Nat
deriving DecidableEq

/-- Decidable equality for `Except`, so that concrete runs of the loop can
be checked by `decide`. -/
instance exceptDecEq {ε α : Type} [DecidableEq ε] [DecidableEq α] :
    DecidableEq (Except ε α) := fun a b =>
  match a, b with
  | .error e, .error f =>
    if h : e = f then .isTrue (congrArg Except.error h)
    else .isFalse (fun hc => h (Except.error.inj hc))
  | .error _, .ok _ => .isFalse (fun hc => Except.noConfusion hc)
  | .ok _, .error _ => .isFalse (fun hc => Except.noConfusion hc)
  | .ok x, .ok y =>
    if h : x = y then .isTrue (congrArg Except.ok h)
    else .isFalse (fun hc => h (Except.ok.inj hc))

/-- The environment of one loop iteration: the result of the
`window.inner_size()` poll at the top of the tick, the frame-acquisition
outcome, the size query used by the forced reconfigure on `Lost`/`Outdated`,
and the clock reading taken by `Instant::now()` at the end of the tick. -/
structure TickInput where
  inner_size : Except Unit (Nat × Nat)
  acquire : AcquireResult
  recovery_size : Except Unit (Nat × Nat)
  now : Nat
deriving DecidableEq

/-- The result of one loop iteration: the successor state plus the
observable effects — whether `get_current_texture` was called, whether a
frame was submitted and presented, how many `surface.configure` calls
happened, how long the tick slept (50 ms in the degenerate-size branch,
4 ms at the bottom of the loop, 0 on `break`), and whether the iteration
ended in `break`. -/
structure TickResult where
  state : LoopState
  acquired : Bool
  presented : Bool
  configures : Nat
  slept_ms : Nat
  broke : Bool
deriving DecidableEq

/-- One iteration of the `while running.load()` body in `run_renderer`
(entered only when `running` reads true; `run_loop` below checks the
flag).  Both arms of the `window_resized.swap(false)` conditional in the
source perform the same non-forced `resize_surface` call, so the swap is
modelled by clearing `window_resized` and making one call.  The `?`
error-propagation sites on `resize_surface` become the `.error` arms.
The frame counter update uses `% 2 ^ 64` to mirror `u64::wrapping_add`. -/
def loop_tick (s : LoopState) (inp : TickInput) : Except Unit TickResult :=
  match resize_surface inp.inner_size s.config false with
  | .error e => .error e
  | .ok (c1, did1) =>
    let n1 : Nat := if did1 then 1 else 0
    if c1.width == 0 || c1.height == 0 then
      let paused : LoopState := { s with window_resized := false, config := c1 }
      .ok { state := paused, acquired := false, presented := false,
            configures := n1, slept_ms := 50, broke := false }
    else
      match inp.acquire with
      | .ok =>
        let s2 : LoopState := { s with window_resized := false, config := c1, frame_index := (s.frame_index + 1) % 2 ^ 64, last_frame_time := inp.now }
        .ok { state := s2, acquired := true, presented := true,
              configures := n1, slept_ms := 4, broke := false }
      | .err .Timeout =>
        let s2 : LoopState := { s with window_resized := false, config := c1, frame_index := (s.frame_index + 1) % 2 ^ 64, last_frame_time := inp.now }
        .ok { state := s2, acquired := true, presented := false,
              configures := n1, slept_ms := 4, broke := false }
      | .err .Lost =>
        match resize_surface inp.recovery_size c1 true with
        | .error e => .error e
        | .ok (c2, did2) =>
          let s2 : LoopState := { s with window_resized := false, config := c2, frame_index := (s.frame_index + 1) % 2 ^ 64, last_frame_time := inp.now }
          .ok { state := s2, acquired := true, presented := false,
                configures := n1 + (if did2 then 1 else 0),
                slept_ms := 4, broke := false }
      | .err .Outdated =>
        match resize_surface inp.recovery_size c1 true with
        | .error e => .error e
        | .ok (c2, did2) =>
          let s2 : LoopState := { s with window_resized := false, config := c2, frame_index := (s.frame_index + 1) % 2 ^ 64, last_frame_time := inp.now }
          .ok { state := s2, acquired := true, presented := false,
                configures := n1 + (if did2 then 1 else 0),
                slept_ms := 4, broke := false }
      | .err .OutOfMemory =>
        let s2 : LoopState := { s with window_resized := false, config := c1, running := false }
        .ok { state := s2, acquired := true, presented := false,
              configures := n1, slept_ms := 0, broke := true }

/-- The `while running.load()` loop of `run_renderer`, driven by a finite
list of per-tick environments.  It returns the final state together with
the unconsumed inputs: inputs remain exactly when the loop terminated
before exhausting them (flag read false, or `break`). -/
def run_loop : LoopState → List TickInput → Except Unit (LoopState × List TickInput)
  | s, [] => .ok (s, [])
  | s, inp :: rest =>
    if s.running then
      match loop_tick s inp with
      | .error e => .error e
      | .ok r => if r.broke then .ok (r.state, rest) else run_loop r.state rest
    else
      .ok (s, inp :: rest)

/-- The value `run_renderer` returns to the spawned thread's closure:
`Ok(())` when the loop exits normally (flag or `break`), the propagated
error otherwise. -/
def run_renderer_result (s : LoopState) (inps : List TickInput) : Except Unit Unit :=
  match run_loop s inps with
  | .ok _ => .ok ()
  | .error e => .error e

/-- Number of diagnostic messages the spawned thread's closure emits:
`eprintln!` fires exactly when `run_renderer` returns an `Err`. -/
def spawn_reports (s : LoopState) (inps : List TickInput) : Nat :=
  match run_renderer_result s inps with
  | .ok _ => 0
  | .error _ => 1

/-- The window lifecycle events handled by the listener installed in
`start_renderer`.  `otherEvent` stands for the wildcard `_ => {}` arm. -/
inductive WindowEvent where
  | Destroyed
  | CloseRequested
  | Resized (w h : Nat)
  | ScaleFactorChanged
  | otherEvent
deriving DecidableEq

/-- The `on_window_event` listener: the new values of the shared
`(running, window_resized)` flags. -/
def on_window_event (running window_resized : Bool) (event : WindowEvent) :
    Bool × Bool :=
  match event with
  | .Destroyed => (false, window_resized)
  | .CloseRequested => (false, window_resized)
  | .Resized _ _ => (running, true)
  | .ScaleFactorChanged => (running, true)
  | .otherEvent => (running, window_resized)

/-- One step of the whole renderer instance after startup: either the
event thread runs the listener, or the renderer thread runs one loop
iteration (which does nothing once `running` reads false, and whose
propagated-error path leaves the shared state untouched). -/
inductive RendererStep where
  | win (e : WindowEvent)
  | tick (inp : TickInput)
deriving DecidableEq

/-- Apply one `RendererStep` to the renderer state. -/
def apply_step (s : LoopState) (step : RendererStep) : LoopState :=
  match step with
  | .win e =>
    let sig := on_window_event s.running s.window_resized e
    { s with running := sig.1, window_resized := sig.2 }
  | .tick inp =>
    if s.running then
      match loop_tick s inp with
      | .ok r => r.state
      | .error _ => s
    else s

/-- A representative reachable configuration for concrete runs. -/
def sample_config : SurfaceConfiguration :=
  { format := .Bgra8UnormSrgb, width := 800, height := 600,
    present_mode := .AutoNoVsync, alpha_mode := .Opaque }

/-- A representative reachable loop state for concrete runs. -/
def sample_state : LoopState :=
  { running := true, window_resized := false, config := sample_config,
    frame_index := 5, last_frame_time := 0 }

/-- A tick whose acquisition reports `OutOfMemory` with an unchanged
window size. -/
def oom_input : TickInput :=
  { inner_size := .ok (800, 600), acquire := .err .OutOfMemory,
    recovery_size := .ok (800, 600), now := 7 }

/-- A tick whose acquisition reports `Timeout` with an unchanged window
size. -/
def timeout_input : TickInput :=
  { inner_size := .ok (800, 600), acquire := .err .Timeout,
    recovery_size := .ok (800, 600), now := 7 }

/-- A tick on which the window reports a width of 0 (pre-clamp) and the
frame would be ready. -/
def zero_size_input : TickInput :=
  { inner_size := .ok (0, 600), acquire := .ok,
    recovery_size := .ok (0, 600), now := 7 }

/-- The tick result as a total function.  `loop_tick` never actually
returns `.error` (proved below), so the default arm is dead code; it lets
claims speak about the result without an existential. -/
def tick_result (s : LoopState) (inp : TickInput) : TickResult :=
  match loop_tick s inp with
  | .ok r => r
  | .error _ =>
    { state := s, acquired := false, presented := false, configures := 0,
      slept_ms := 0, broke := false }

/-- The startup failure of `start_renderer` when no webview window
exists. -/
inductive StartError where
  | NoWindowAvailable
deriving DecidableEq

/-- The window lookup at the top of `start_renderer`: prefer the window
labelled `"main"` (`app.get_webview_window("main")`), else the first of
the currently open windows (`app.webview_windows().values().next()`),
else fail.  Windows are modelled as label/id pairs. -/
def locate_window (windows : List (String × Nat)) : Except StartError Nat :=
  match windows.find? (fun w => w.1 == "main") with
  | some w => .ok w.2
  | none =>
    match windows.head? with
    | some w => .ok w.2
    | none => .error .NoWindowAvailable

/-- What the plugin's `init` setup closure observably does: whether the
renderer thread was spawned (so the loop can run at all), how many
diagnostic messages were printed, and whether setup returned `Ok` to the
host (it always does — a startup failure is absorbed after being
reported). -/
structure StartOutcome where
  spawned : Bool
  reports : Nat
  setup_ok : Bool
deriving DecidableEq

/-- The `init` setup closure: run `start_renderer`; on failure report the
error once and carry on. -/
def init_setup (windows : List (String × Nat)) : StartOutcome :=
  match locate_window windows with
  | .ok _ => { spawned := true, reports := 0, setup_ok := true }
  | .error _ => { spawned := false, reports := 1, setup_ok := true }

/-- Helper: `find?` returns the first element of the list satisfying the
predicate. -/
theorem find?_of_split {α : Type} (p : α → Bool) :
    ∀ (pre : List α) (f : α) (post : List α),
      (∀ g ∈ pre, p g = false) → p f = true →
      (pre ++ f :: post).find? p = some f := by
  intro pre
  induction pre with
  | nil =>
    intro f post _ hf
    simp [List.find?, hf]
  | cons a pre ih =>
    intro f post hpre hf
    have ha : p a = false := hpre a (by simp)
    simp only [List.cons_append, List.find?, ha]
    exact ih f post (fun g hg => hpre g (by simp [hg])) hf

/-- C3 counterexample: the code does not prefer `Bgra8UnormSrgb` over
`Bgra8Unorm`; it returns the first of the two that appears.  On the list
`[Bgra8Unorm, Bgra8UnormSrgb]`, which contains a gamma-corrected 8-bit BGRA
format, selection returns the linear format. -/
theorem pick_surface_format_order_counterexample :
    pick_surface_format [.Bgra8Unorm, .Bgra8UnormSrgb] = .Bgra8Unorm ∧
    TextureFormat.Bgra8UnormSrgb ∈
      [TextureFormat.Bgra8Unorm, TextureFormat.Bgra8UnormSrgb] := by
  decide

/-- C3 amended: surface-format selection returns the first format in the
advertised list that is `Bgra8UnormSrgb` or `Bgra8Unorm` whenever the list
contains either (no preference between the two beyond list order);
otherwise the first format in the list.  The three concrete instances of
the claim do hold: `[A, BGRA8_SRGB, BGRA8] ↦ BGRA8_SRGB`,
`[A, BGRA8] ↦ BGRA8`, `[A] ↦ A`. -/
theorem pick_surface_format_amended :
    (∀ (formats pre post : List TextureFormat) (f : TextureFormat),
       formats = pre ++ f :: post →
       (f = .Bgra8UnormSrgb ∨ f = .Bgra8Unorm) →
       (∀ g ∈ pre, g ≠ .Bgra8UnormSrgb ∧ g ≠ .Bgra8Unorm) →
       pick_surface_format formats = f) ∧
    (∀ (a : TextureFormat) (rest : List TextureFormat),
       (∀ g ∈ a :: rest, g ≠ .Bgra8UnormSrgb ∧ g ≠ .Bgra8Unorm) →
       pick_surface_format (a :: rest) = a) ∧
    pick_surface_format [.other 0, .Bgra8UnormSrgb, .Bgra8Unorm] = .Bgra8UnormSrgb ∧
    pick_surface_format [.other 0, .Bgra8Unorm] = .Bgra8Unorm ∧
    pick_surface_format [.other 0] = .other 0 := by
  refine ⟨?_, ?_, by decide, by decide, by decide⟩
  · intro formats pre post f hsplit hf hpre
    subst hsplit
    have hp : ∀ g ∈ pre, (g == TextureFormat.Bgra8UnormSrgb ||
        g == TextureFormat.Bgra8Unorm) = false := by
      intro g hg
      have h := hpre g hg
      simp only [Bool.or_eq_false_iff, beq_eq_false_iff_ne, ne_eq]
      exact ⟨h.1, h.2⟩
    have hf2 : (f == TextureFormat.Bgra8UnormSrgb ||
        f == TextureFormat.Bgra8Unorm) = true := by
      rcases hf with h | h <;> simp [h]
    unfold pick_surface_format
    rw [find?_of_split _ pre f post hp hf2]
  · intro a rest hall
    have hnone : (a :: rest).find? (fun f => f == TextureFormat.Bgra8UnormSrgb ||
        f == TextureFormat.Bgra8Unorm) = none := by
      rw [List.find?_eq_none]
      intro g hg
      have h := hall g hg
      simp only [Bool.or_eq_true, beq_iff_eq, not_or]
      exact ⟨h.1, h.2⟩
    unfold pick_surface_format
    rw [hnone]
    simp

/-- C3 witness: the amended first-match property applied at a concrete
list. -/
theorem pick_surface_format_amended_witness :
    pick_surface_format [.Bgra8Unorm, .other 1] = .Bgra8Unorm :=
  pick_surface_format_amended.1 _ ([] : List TextureFormat)
    [TextureFormat.other 1] TextureFormat.Bgra8Unorm rfl (Or.inr rfl) (by simp)

/-- C8 counterexample: the fallback arms of the three selections can return
a value outside the advertised capability list, so "the value it returns is
a member of the corresponding advertised list" fails: present-mode
selection on `[AutoVsync]` returns `Fifo`, alpha-mode selection on
`[PreMultiplied]` returns `Auto`, and format selection on the empty list
returns `Bgra8Unorm`. -/
theorem selection_membership_counterexample :
    pick_present_mode [.AutoVsync] = .Fifo ∧
    PresentMode.Fifo ∉ [PresentMode.AutoVsync] ∧
    pick_alpha_mode [.PreMultiplied] = .Auto ∧
    CompositeAlphaMode.Auto ∉ [CompositeAlphaMode.PreMultiplied] ∧
    pick_surface_format [] = .Bgra8Unorm ∧
    TextureFormat.Bgra8Unorm ∉ ([] : List TextureFormat) := by
  decide

/-- C8 amended: each of the three selections is a total function (it is a
plain function in the embedding, mirroring the infallible Rust
expressions), and the returned value is a member of the advertised list
whenever the list is nonempty (formats), contains one of `AutoNoVsync`,
`Immediate`, `Mailbox`, `Fifo` (present modes), or contains `Opaque` or
`Auto` (alpha modes); in the remaining fallback cases the hard-wired
defaults `Bgra8Unorm` / `Fifo` / `Auto` are returned even when absent from
the list. -/
theorem selection_totality_membership :
    (∀ formats : List TextureFormat, formats ≠ [] →
       pick_surface_format formats ∈ formats) ∧
    (∀ modes : List PresentMode,
       (PresentMode.AutoNoVsync ∈ modes ∨ PresentMode.Immediate ∈ modes ∨
        PresentMode.Mailbox ∈ modes ∨ PresentMode.Fifo ∈ modes) →
       pick_present_mode modes ∈ modes) ∧
    (∀ modes : List CompositeAlphaMode,
       (CompositeAlphaMode.Opaque ∈ modes ∨ CompositeAlphaMode.Auto ∈ modes) →
       pick_alpha_mode modes ∈ modes) := by
  refine ⟨?_, ?_, ?_⟩
  · intro formats hne
    unfold pick_surface_format
    cases h : formats.find? (fun f => f == .Bgra8UnormSrgb || f == .Bgra8Unorm) with
    | some f => exact List.mem_of_find?_eq_some h
    | none =>
      cases formats with
      | nil => exact absurd rfl hne
      | cons a rest => simp
  · intro modes hmem
    unfold pick_present_mode
    split
    · assumption
    · rename_i hauto
      cases h : modes.find? (fun mode => mode == .Immediate || mode == .Mailbox) with
      | some mode => exact List.mem_of_find?_eq_some h
      | none =>
        have hnone := List.find?_eq_none.mp h
        rcases hmem with hm | hm | hm | hm
        · exact absurd hm hauto
        · exact absurd (by decide) (hnone _ hm)
        · exact absurd (by decide) (hnone _ hm)
        · exact hm
  · intro modes hmem
    unfold pick_alpha_mode
    cases h : modes.find? (fun mode => mode == .Opaque || mode == .Auto) with
    | some mode => exact List.mem_of_find?_eq_some h
    | none =>
      have hnone := List.find?_eq_none.mp h
      rcases hmem with hm | hm
      · exact absurd (by decide) (hnone _ hm)
      · exact absurd (by decide) (hnone _ hm)

/-- C8 witness: the amended membership property applied at concrete
capability lists. -/
theorem selection_totality_membership_witness :
    pick_surface_format [.other 3] ∈ [TextureFormat.other 3] ∧
    pick_present_mode [.Fifo] ∈ [PresentMode.Fifo] ∧
    pick_alpha_mode [.Opaque] ∈ [CompositeAlphaMode.Opaque] :=
  ⟨selection_totality_membership.1 _ (by decide),
   selection_totality_membership.2.1 _ (Or.inr (Or.inr (Or.inr (by decide)))),
   selection_totality_membership.2.2 _ (Or.inl (by decide))⟩

/-- Helper: every `resize_surface` call either performs no device write and
returns the configuration unchanged, or performs one write and installs
clamped (hence positive) dimensions, leaving the other fields intact. -/
theorem resize_surface_result (inner_size : Except Unit (Nat × Nat))
    (config : SurfaceConfiguration) (force : Bool) :
    resize_surface inner_size config force = .ok (config, false) ∨
    ∃ c, resize_surface inner_size config force = .ok (c, true) ∧
      1 ≤ c.width ∧ 1 ≤ c.height ∧ c.format = config.format ∧
      c.present_mode = config.present_mode ∧ c.alpha_mode = config.alpha_mode := by
  unfold resize_surface
  cases inner_size <;> dsimp only <;> split
  · exact Or.inr ⟨_, rfl, Nat.le_max_right _ 1, Nat.le_max_right _ 1, rfl, rfl, rfl⟩
  · exact Or.inl rfl
  · exact Or.inr ⟨_, rfl, Nat.le_max_right _ 1, Nat.le_max_right _ 1, rfl, rfl, rfl⟩
  · exact Or.inl rfl

/-- Helper: a forced `resize_surface` always writes, and writes clamped
dimensions. -/
theorem resize_surface_forced (inner_size : Except Unit (Nat × Nat))
    (config : SurfaceConfiguration) :
    ∃ c, resize_surface inner_size config true = .ok (c, true) ∧
      1 ≤ c.width ∧ 1 ≤ c.height := by
  unfold resize_surface
  cases inner_size <;> dsimp only
  · exact ⟨_, rfl, Nat.le_max_right _ 1, Nat.le_max_right _ 1⟩
  · exact ⟨_, rfl, Nat.le_max_right _ 1, Nat.le_max_right _ 1⟩

/-- Helper: when the window-size query fails and the current configuration
has positive dimensions, `resize_surface` keeps the configuration exactly
(and writes it back to the device only when forced). -/
theorem resize_surface_error_retains (config : SurfaceConfiguration)
    (force : Bool) (hw : 1 ≤ config.width) (hh : 1 ≤ config.height) :
    resize_surface (.error ()) config force = .ok (config, force) := by
  cases config with
  | mk f w hgt pm am =>
    have h1 : max w 1 = w := Nat.max_eq_left hw
    have h2 : max hgt 1 = hgt := Nat.max_eq_left hh
    cases force <;> simp [resize_surface, h1, h2]

/-- C5: with `force` unset and a window size whose clamped dimensions equal
the currently applied width and height, `resize_surface` performs no
device-side reconfiguration and leaves the configuration untouched; and
for any two consecutive calls with the identical reported size (the first
with arbitrary `force`), the second performs no device-side
reconfiguration — at most one write for the pair. -/
theorem resize_surface_idempotent (w h : Nat) (config : SurfaceConfiguration)
    (force : Bool) :
    (max w 1 = config.width → max h 1 = config.height →
       resize_surface (.ok (w, h)) config false = .ok (config, false)) ∧
    (∃ config1 did1,
       resize_surface (.ok (w, h)) config force = .ok (config1, did1) ∧
       resize_surface (.ok (w, h)) config1 false = .ok (config1, false)) := by
  constructor
  · intro hw hh
    simp [resize_surface, hw, hh]
  · by_cases hc : (force || (max w 1 != config.width) || (max h 1 != config.height)) = true
    · refine ⟨{ config with width := max w 1, height := max h 1 }, true, ?_, ?_⟩
      · simp only [resize_surface]
        rw [if_pos hc]
      · simp [resize_surface]
    · rw [Bool.not_eq_true] at hc
      have h1 := Bool.or_eq_false_iff.mp hc
      have h2 := Bool.or_eq_false_iff.mp h1.1
      refine ⟨config, false, ?_, ?_⟩
      · simp only [resize_surface]
        rw [if_neg (by simp [hc])]
      · simp [resize_surface, h2.2, h1.2]

/-- C5 witness: the no-write property at a concrete configuration and
size. -/
theorem resize_surface_idempotent_witness :
    resize_surface (.ok (4, 3))
      { format := .Bgra8Unorm, width := 4, height := 3,
        present_mode := .Fifo, alpha_mode := .Auto } false =
    .ok ({ format := .Bgra8Unorm, width := 4, height := 3,
           present_mode := .Fifo, alpha_mode := .Auto }, false) :=
  (resize_surface_idempotent 4 3
    { format := .Bgra8Unorm, width := 4, height := 3,
      present_mode := .Fifo, alpha_mode := .Auto } false).1 (by decide) (by decide)

/-- Helper: `resize_step` preserves the C6 invariant. -/
theorem resize_step_inv (st : SurfaceConfiguration × (Nat × Nat))
    (call : Except Unit (Nat × Nat) × Bool) (h : config_inv st) :
    config_inv (resize_step st call) := by
  rcases resize_surface_result call.1 st.1 call.2 with hr | ⟨c, hr, hw, hh, -, -, -⟩
  · unfold resize_step
    rw [hr]
    exact h
  · unfold resize_step
    rw [hr]
    exact ⟨hw, hh, rfl⟩

/-- Helper: the C6 invariant is preserved along any sequence of
`resize_surface` calls. -/
theorem foldl_resize_inv (calls : List (Except Unit (Nat × Nat) × Bool)) :
    ∀ st, config_inv st → config_inv (calls.foldl resize_step st) := by
  induction calls with
  | nil => intro st h; exact h
  | cons call rest ih =>
    intro st h
    exact ih _ (resize_step_inv st call h)

/-- C6: starting from the initial configuration and the initial forced
`resize_surface`, after any sequence of further `resize_surface` calls
(forced or not, with arbitrary size-query results including failures) the
configured width and height are at least 1 and equal the dimensions of the
last device-applied configuration; and on a size-query failure the
previously applied size is retained exactly. -/
theorem surface_config_invariant (format : TextureFormat)
    (present_mode : PresentMode) (alpha_mode : CompositeAlphaMode)
    (inner0 : Except Unit (Nat × Nat))
    (calls : List (Except Unit (Nat × Nat) × Bool)) :
    (∃ c0, resize_surface inner0 (init_config format present_mode alpha_mode) true =
         .ok (c0, true) ∧
       config_inv (calls.foldl resize_step (c0, (c0.width, c0.height)))) ∧
    (∀ (config : SurfaceConfiguration) (force : Bool),
       1 ≤ config.width → 1 ≤ config.height →
       resize_surface (.error ()) config force = .ok (config, force)) := by
  constructor
  · obtain ⟨c0, hr, hw, hh⟩ :=
      resize_surface_forced inner0 (init_config format present_mode alpha_mode)
    exact ⟨c0, hr, foldl_resize_inv calls _ ⟨hw, hh, rfl⟩⟩
  · intro config force hw hh
    exact resize_surface_error_retains config force hw hh

/-- C6 witness: the failure-retention part applied at a concrete
configuration. -/
theorem surface_config_invariant_witness :
    resize_surface (.error ())
      { format := .Bgra8Unorm, width := 7, height := 5,
        present_mode := .Fifo, alpha_mode := .Auto } false =
    .ok ({ format := .Bgra8Unorm, width := 7, height := 5,
           present_mode := .Fifo, alpha_mode := .Auto }, false) :=
  (surface_config_invariant .Bgra8Unorm .Fifo .Auto (.ok (1, 1)) []).2
    { format := .Bgra8Unorm, width := 7, height := 5,
      present_mode := .Fifo, alpha_mode := .Auto } false (by decide) (by decide)

/-- Helper: the degenerate-size guard reads false on any configuration
with positive dimensions. -/
theorem guard_false (c : SurfaceConfiguration) (hw : 1 ≤ c.width)
    (hh : 1 ≤ c.height) : (c.width == 0 || c.height == 0) = false := by
  have g1 : (c.width == 0) = false :=
    beq_eq_false_iff_ne.mpr (Nat.pos_iff_ne_zero.mp hw)
  have g2 : (c.height == 0) = false :=
    beq_eq_false_iff_ne.mpr (Nat.pos_iff_ne_zero.mp hh)
  rw [g1, g2]
  rfl

/-- Helper: `resize_surface` always returns `.ok`. -/
theorem resize_surface_isOk (inner_size : Except Unit (Nat × Nat))
    (config : SurfaceConfiguration) (force : Bool) :
    ∃ out, resize_surface inner_size config force = .ok out := by
  rcases resize_surface_result inner_size config force with h | ⟨c, h, -, -, -, -, -⟩
  · exact ⟨_, h⟩
  · exact ⟨_, h⟩

/-- Helper: `loop_tick` always returns `.ok`: both of its
error-propagation sites forward `resize_surface` errors, which never
occur. -/
theorem loop_tick_isOk (s : LoopState) (inp : TickInput) :
    ∃ r, loop_tick s inp = .ok r := by
  unfold loop_tick
  rcases resize_surface_result inp.inner_size s.config false with hr | ⟨c, hr, -, -, -, -, -⟩ <;>
    rw [hr] <;> dsimp only <;> split
  · exact ⟨_, rfl⟩
  · cases inp.acquire with
    | ok => exact ⟨_, rfl⟩
    | err e =>
      cases e with
      | Timeout => exact ⟨_, rfl⟩
      | Outdated =>
        obtain ⟨c2, h2, -, -⟩ := resize_surface_forced inp.recovery_size s.config
        rw [h2]
        exact ⟨_, rfl⟩
      | Lost =>
        obtain ⟨c2, h2, -, -⟩ := resize_surface_forced inp.recovery_size s.config
        rw [h2]
        exact ⟨_, rfl⟩
      | OutOfMemory => exact ⟨_, rfl⟩
  · exact ⟨_, rfl⟩
  · cases inp.acquire with
    | ok => exact ⟨_, rfl⟩
    | err e =>
      cases e with
      | Timeout => exact ⟨_, rfl⟩
      | Outdated =>
        obtain ⟨c2, h2, -, -⟩ := resize_surface_forced inp.recovery_size c
        rw [h2]
        exact ⟨_, rfl⟩
      | Lost =>
        obtain ⟨c2, h2, -, -⟩ := resize_surface_forced inp.recovery_size c
        rw [h2]
        exact ⟨_, rfl⟩
      | OutOfMemory => exact ⟨_, rfl⟩

/-- Helper: a tick that ends in `break` has stored false to `running`
(the `break` only occurs in the `OutOfMemory` arm, right after the
store). -/
theorem loop_tick_broke_all (s : LoopState) (inp : TickInput) :
    ∀ r, loop_tick s inp = .ok r → r.broke = true → r.state.running = false := by
  unfold loop_tick
  rcases resize_surface_result inp.inner_size s.config false with hr | ⟨c, hr, -, -, -, -, -⟩ <;>
    rw [hr] <;> dsimp only <;> split <;>
    first
    | (intro r h hb
       injection h with h
       subst h
       exact Bool.noConfusion hb)
    | (cases inp.acquire with
       | ok =>
         intro r h hb
         injection h with h
         subst h
         exact Bool.noConfusion hb
       | err e =>
         cases e with
         | Timeout =>
           intro r h hb
           injection h with h
           subst h
           exact Bool.noConfusion hb
         | Outdated =>
           obtain ⟨c2, h2, -, -⟩ := resize_surface_forced inp.recovery_size _
           rw [h2]
           intro r h hb
           injection h with h
           subst h
           exact Bool.noConfusion hb
         | Lost =>
           obtain ⟨c2, h2, -, -⟩ := resize_surface_forced inp.recovery_size _
           rw [h2]
           intro r h hb
           injection h with h
           subst h
           exact Bool.noConfusion hb
         | OutOfMemory =>
           intro r h hb
           injection h with h
           subst h
           rfl)

/-- Helper: `run_loop` always returns `.ok`. -/
theorem run_loop_isOk (inps : List TickInput) :
    ∀ s, ∃ out, run_loop s inps = .ok out := by
  induction inps with
  | nil => intro s; exact ⟨_, rfl⟩
  | cons inp rest ih =>
    intro s
    by_cases hrun : s.running = true
    · obtain ⟨r, hr⟩ := loop_tick_isOk s inp
      by_cases hb : r.broke = true
      · exact ⟨_, by simp only [run_loop]; rw [if_pos hrun, hr]; dsimp only; rw [if_pos hb]⟩
      · obtain ⟨out, hout⟩ := ih r.state
        exact ⟨out, by simp only [run_loop]; rw [if_pos hrun, hr]; dsimp only; rw [if_neg hb]; exact hout⟩
    · exact ⟨_, by simp only [run_loop]; rw [if_neg hrun]⟩

/-- Helper: once `running` reads false, the loop exits immediately and
consumes nothing. -/
theorem run_loop_halted (s : LoopState) (h : s.running = false) :
    ∀ inps, run_loop s inps = .ok (s, inps) := by
  intro inps
  cases inps with
  | nil => rfl
  | cons inp rest =>
    simp only [run_loop]
    rw [if_neg (by rw [h]; exact Bool.false_ne_true)]

/-- Helper: whenever the loop stops with inputs left unconsumed, the
`running` flag of the final state reads false. -/
theorem run_loop_early_exit (inps : List TickInput) :
    ∀ s s2 rem, run_loop s inps = .ok (s2, rem) → rem ≠ [] → s2.running = false := by
  induction inps with
  | nil =>
    intro s s2 rem h hne
    unfold run_loop at h
    injection h with h
    injection h with h1 h2
    exact absurd h2.symm hne
  | cons inp rest ih =>
    intro s s2 rem h hne
    unfold run_loop at h
    by_cases hrun : s.running = true
    · rw [if_pos hrun] at h
      obtain ⟨r, hr⟩ := loop_tick_isOk s inp
      rw [hr] at h
      dsimp only at h
      by_cases hb : r.broke = true
      · rw [if_pos hb] at h
        injection h with h
        injection h with h1 h2
        rw [← h1]
        exact loop_tick_broke_all s inp r hr hb
      · rw [if_neg hb] at h
        exact ih _ _ _ h hne
    · rw [if_neg hrun] at h
      injection h with h
      injection h with h1 h2
      rw [← h1, Bool.not_eq_true] at *
      exact hrun

/-- Helper: from a state whose configuration has positive dimensions —
which holds for every reachable state after initialization — every tick
attempts a frame acquisition and never takes the 50 ms degenerate-size
pause: the guard tests the post-clamp configuration, never the raw
reported size. -/
theorem loop_tick_acquires_of_pos (s : LoopState) (inp : TickInput)
    (hw : 1 ≤ s.config.width) (hh : 1 ≤ s.config.height) :
    ∃ r, loop_tick s inp = .ok r ∧ r.acquired = true ∧ r.slept_ms ≠ 50 := by
  unfold loop_tick
  rcases resize_surface_result inp.inner_size s.config false with hr | ⟨c, hr, hcw, hch, -, -, -⟩ <;>
    rw [hr] <;> dsimp only
  · rw [guard_false s.config hw hh]
    simp only [Bool.false_eq_true, if_false]
    cases inp.acquire with
    | ok => exact ⟨_, rfl, rfl, by simp⟩
    | err e =>
      cases e with
      | Timeout => exact ⟨_, rfl, rfl, by simp⟩
      | Outdated =>
        obtain ⟨c2, h2, -, -⟩ := resize_surface_forced inp.recovery_size s.config
        rw [h2]
        exact ⟨_, rfl, rfl, by simp⟩
      | Lost =>
        obtain ⟨c2, h2, -, -⟩ := resize_surface_forced inp.recovery_size s.config
        rw [h2]
        exact ⟨_, rfl, rfl, by simp⟩
      | OutOfMemory => exact ⟨_, rfl, rfl, by simp⟩
  · rw [guard_false c hcw hch]
    simp only [Bool.false_eq_true, if_false]
    cases inp.acquire with
    | ok => exact ⟨_, rfl, rfl, by simp⟩
    | err e =>
      cases e with
      | Timeout => exact ⟨_, rfl, rfl, by simp⟩
      | Outdated =>
        obtain ⟨c2, h2, -, -⟩ := resize_surface_forced inp.recovery_size c
        rw [h2]
        exact ⟨_, rfl, rfl, by simp⟩
      | Lost =>
        obtain ⟨c2, h2, -, -⟩ := resize_surface_forced inp.recovery_size c
        rw [h2]
        exact ⟨_, rfl, rfl, by simp⟩
      | OutOfMemory => exact ⟨_, rfl, rfl, by simp⟩

/-- Helper: exact shape of an `OutOfMemory` tick from a state with
positive configured dimensions. -/
theorem loop_tick_oom (s : LoopState) (inp : TickInput)
    (hoom : inp.acquire = .err .OutOfMemory)
    (hw : 1 ≤ s.config.width) (hh : 1 ≤ s.config.height) :
    ∃ r, loop_tick s inp = .ok r ∧ r.acquired = true ∧ r.presented = false ∧
      r.broke = true ∧ r.state.running = false ∧
      r.state.frame_index = s.frame_index ∧
      r.state.last_frame_time = s.last_frame_time := by
  unfold loop_tick
  rw [hoom]
  rcases resize_surface_result inp.inner_size s.config false with hr | ⟨c, hr, hcw, hch, -, -, -⟩ <;>
    rw [hr] <;> dsimp only
  · rw [guard_false s.config hw hh]
    simp only [Bool.false_eq_true, if_false]
    exact ⟨_, rfl, rfl, rfl, rfl, rfl, rfl, rfl⟩
  · rw [guard_false c hcw hch]
    simp only [Bool.false_eq_true, if_false]
    exact ⟨_, rfl, rfl, rfl, rfl, rfl, rfl, rfl⟩

/-- Helper: exact shape of a `Timeout` tick from a state with positive
configured dimensions, exposing the `resize_surface` outcome of the tick's
poll. -/
theorem loop_tick_timeout (s : LoopState) (inp : TickInput)
    (hto : inp.acquire = .err .Timeout)
    (hw : 1 ≤ s.config.width) (hh : 1 ≤ s.config.height) :
    ∃ c1 did1, resize_surface inp.inner_size s.config false = .ok (c1, did1) ∧
      loop_tick s inp = .ok { state := { s with window_resized := false, config := c1, frame_index := (s.frame_index + 1) % 2 ^ 64, last_frame_time := inp.now }, acquired := true, presented := false, configures := if did1 then 1 else 0, slept_ms := 4, broke := false } := by
  rcases resize_surface_result inp.inner_size s.config false with hr | ⟨c, hr, hcw, hch, -, -, -⟩
  · refine ⟨s.config, false, hr, ?_⟩
    unfold loop_tick
    rw [hr]
    dsimp only
    rw [hto, guard_false s.config hw hh]
    simp only [Bool.false_eq_true, if_false]
  · refine ⟨c, true, hr, ?_⟩
    unfold loop_tick
    rw [hr]
    dsimp only
    rw [hto, guard_false c hcw hch]
    simp only [Bool.false_eq_true, if_false]

/-- Helper: no step (listener or tick) can turn `running` back on. -/
theorem apply_step_keeps_stopped (s : LoopState) (st : RendererStep)
    (h : s.running = false) : (apply_step s st).running = false := by
  cases st with
  | win e => cases e <;> simp [apply_step, on_window_event, h]
  | tick inp => simp [apply_step, h]

/-- Helper: `running = false` is preserved by any sequence of steps. -/
theorem foldl_steps_stopped (steps : List RendererStep) :
    ∀ s : LoopState, s.running = false →
      (steps.foldl apply_step s).running = false := by
  induction steps with
  | nil => intro s h; exact h
  | cons st rest ih => intro s h; exact ih _ (apply_step_keeps_stopped s st h)

/-- C2 counterexample: on a tick whose reported window size is `(0, 600)`
(zero pre-clamp dimension), the loop still attempts — and here completes —
a frame acquisition, reconfigures to the clamped `1 × 600` size, and
sleeps the ordinary 4 ms, not the tens-of-milliseconds pause. -/
theorem degenerate_size_counterexample :
    zero_size_input.inner_size = .ok (0, 600) ∧
    loop_tick sample_state zero_size_input =
      .ok { state := { sample_state with config := { sample_config with width := 1 }, frame_index := 6, last_frame_time := 7 }, acquired := true, presented := true, configures := 1, slept_ms := 4, broke := false } := by
  decide

/-- C2 amended: the degenerate-size guard tests the applied configuration
after clamping, whose dimensions are always at least 1 in every reachable
state, so the pause branch is unreachable: on every tick — in particular
one whose reported size has a zero dimension, which is clamped to 1 — a
frame-acquire call is attempted and the fixed 50 ms sleep never happens. -/
theorem degenerate_size_tick_acquires (s : LoopState) (inp : TickInput)
    (hw : 1 ≤ s.config.width) (hh : 1 ≤ s.config.height) :
    loop_tick s inp = .ok (tick_result s inp) ∧
    (tick_result s inp).acquired = true ∧
    (tick_result s inp).slept_ms ≠ 50 := by
  obtain ⟨r, hr, ha, hs⟩ := loop_tick_acquires_of_pos s inp hw hh
  have he : tick_result s inp = r := by unfold tick_result; rw [hr]
  rw [he]
  exact ⟨hr, ha, hs⟩

/-- C2 witness: the amended property at the concrete zero-width tick. -/
theorem degenerate_size_tick_acquires_witness :
    loop_tick sample_state zero_size_input = .ok (tick_result sample_state zero_size_input) ∧
    (tick_result sample_state zero_size_input).acquired = true ∧
    (tick_result sample_state zero_size_input).slept_ms ≠ 50 :=
  degenerate_size_tick_acquires sample_state zero_size_input (by decide) (by decide)

/-- C1 counterexample: an out-of-memory acquisition stops the loop with
`running = false`, but `run_renderer` then returns `Ok(())`, so the
spawned thread's closure reports nothing: the failure is reported zero
times to the diagnostic channel, not exactly once. -/
theorem oom_silent_stop_counterexample :
    oom_input.acquire = .err .OutOfMemory ∧
    loop_tick sample_state oom_input =
      .ok { state := { sample_state with running := false }, acquired := true, presented := false, configures := 0, slept_ms := 0, broke := true } ∧
    run_loop sample_state [oom_input] = .ok ({ sample_state with running := false }, []) ∧
    spawn_reports sample_state [oom_input] = 0 := by
  decide

/-- C1 amended: when a frame acquisition returns out-of-memory, the loop
sets `running` to false and exits permanently — no later tick runs, no
frame is submitted or presented afterwards, and `running` reads false
after every further step — but nothing is reported to the diagnostic
channel: the loop `break`s and `run_renderer` returns `Ok`, so the stop is
silent (zero reports, not one). -/
theorem oom_fatal_halt (s : LoopState) (inp : TickInput)
    (hrun : s.running = true) (hoom : inp.acquire = .err .OutOfMemory)
    (hw : 1 ≤ s.config.width) (hh : 1 ≤ s.config.height) :
    (tick_result s inp).acquired = true ∧
    (tick_result s inp).presented = false ∧
    (tick_result s inp).broke = true ∧
    (tick_result s inp).state.running = false ∧
    (∀ rest, run_loop s (inp :: rest) = .ok ((tick_result s inp).state, rest)) ∧
    (∀ rest, spawn_reports s (inp :: rest) = 0) ∧
    (∀ inps, run_loop (tick_result s inp).state inps = .ok ((tick_result s inp).state, inps)) ∧
    (∀ steps : List RendererStep, (steps.foldl apply_step (tick_result s inp).state).running = false) := by
  obtain ⟨r, hr, ha, hp, hb, hrn, -, -⟩ := loop_tick_oom s inp hoom hw hh
  have he : tick_result s inp = r := by unfold tick_result; rw [hr]
  rw [he]
  have hl : ∀ rest, run_loop s (inp :: rest) = .ok (r.state, rest) := by
    intro rest
    simp only [run_loop]
    rw [if_pos hrun, hr]
    dsimp only
    rw [if_pos hb]
  refine ⟨ha, hp, hb, hrn, hl, ?_, run_loop_halted r.state hrn, ?_⟩
  · intro rest
    unfold spawn_reports run_renderer_result
    rw [hl rest]
  · intro steps
    exact foldl_steps_stopped steps r.state hrn

/-- C1 witness: the amended fatal-halt property at the concrete
out-of-memory tick. -/
theorem oom_fatal_halt_witness :
    (tick_result sample_state oom_input).state.running = false ∧
    spawn_reports sample_state [oom_input] = 0 :=
  ⟨(oom_fatal_halt sample_state oom_input rfl rfl (by decide) (by decide)).2.2.2.1,
   (oom_fatal_halt sample_state oom_input rfl rfl (by decide) (by decide)).2.2.2.2.2.1 []⟩

/-- C4 counterexample: a tick whose acquisition times out does change
state: starting from frame counter 5 and elapsed-time origin 0, the tick
ends with frame counter 6 and origin 7 — the counter is advanced and the
origin reset also on `Timeout`, not only on a successful
acquire-render-present. -/
theorem timeout_advances_counterexample :
    timeout_input.acquire = .err .Timeout ∧
    sample_state.frame_index = 5 ∧
    sample_state.last_frame_time = 0 ∧
    loop_tick sample_state timeout_input =
      .ok { state := { sample_state with frame_index := 6, last_frame_time := 7 }, acquired := true, presented := false, configures := 0, slept_ms := 4, broke := false } := by
  decide

/-- C4 amended: on a `Timeout` tick nothing is presented, nothing breaks
the loop and no error is reported, and the surface configuration is left
unchanged when the polled size matches the applied one — but the frame
counter is advanced (wrapping modulo `2 ^ 64`) and the elapsed-time origin
is reset to the tick's clock reading, exactly as on a successful tick:
those updates sit after the `match` and run on every non-`break` path. -/
theorem timeout_tick_behavior (s : LoopState) (inp : TickInput)
    (hto : inp.acquire = .err .Timeout)
    (hw : 1 ≤ s.config.width) (hh : 1 ≤ s.config.height) :
    loop_tick s inp = .ok (tick_result s inp) ∧
    (tick_result s inp).acquired = true ∧
    (tick_result s inp).presented = false ∧
    (tick_result s inp).broke = false ∧
    (tick_result s inp).state.running = s.running ∧
    (tick_result s inp).state.frame_index = (s.frame_index + 1) % 2 ^ 64 ∧
    (tick_result s inp).state.last_frame_time = inp.now ∧
    (inp.inner_size = .ok (s.config.width, s.config.height) →
       (tick_result s inp).state.config = s.config ∧
       (tick_result s inp).configures = 0) := by
  obtain ⟨c1, did1, hr, htick⟩ := loop_tick_timeout s inp hto hw hh
  have he : tick_result s inp = { state := { s with window_resized := false, config := c1, frame_index := (s.frame_index + 1) % 2 ^ 64, last_frame_time := inp.now }, acquired := true, presented := false, configures := if did1 then 1 else 0, slept_ms := 4, broke := false } := by
    unfold tick_result
    rw [htick]
  rw [he]
  refine ⟨htick, rfl, rfl, rfl, rfl, rfl, rfl, ?_⟩
  intro hsize
  have hr2 : resize_surface inp.inner_size s.config false = .ok (s.config, false) := by
    rw [hsize]
    simp [resize_surface, Nat.max_eq_left hw, Nat.max_eq_left hh]
  rw [hr] at hr2
  injection hr2 with hr2
  injection hr2 with hc hd
  subst hc
  subst hd
  exact ⟨rfl, rfl⟩

/-- C4 witness: the amended timeout-tick property at the concrete timeout
tick. -/
theorem timeout_tick_behavior_witness :
    loop_tick sample_state timeout_input = .ok (tick_result sample_state timeout_input) ∧
    (tick_result sample_state timeout_input).acquired = true ∧
    (tick_result sample_state timeout_input).presented = false ∧
    (tick_result sample_state timeout_input).broke = false ∧
    (tick_result sample_state timeout_input).state.running = sample_state.running ∧
    (tick_result sample_state timeout_input).state.frame_index = (sample_state.frame_index + 1) % 2 ^ 64 ∧
    (tick_result sample_state timeout_input).state.last_frame_time = timeout_input.now ∧
    (timeout_input.inner_size = .ok (sample_state.config.width, sample_state.config.height) →
       (tick_result sample_state timeout_input).state.config = sample_state.config ∧
       (tick_result sample_state timeout_input).configures = 0) :=
  timeout_tick_behavior sample_state timeout_input rfl (by decide) (by decide)

/-- C7: `running` is one-shot: once it reads false, no step — listener
callback or loop tick — ever stores true again (every sequence of steps
keeps it false), and any step after which `running` reads true started
with it already true (the only post-startup writes store false). -/
theorem running_one_shot (s : LoopState) (steps : List RendererStep) :
    (s.running = false → (steps.foldl apply_step s).running = false) ∧
    (∀ st : RendererStep, (apply_step s st).running = true → s.running = true) := by
  constructor
  · exact fun h => foldl_steps_stopped steps s h
  · intro st h
    by_contra hs
    rw [Bool.not_eq_true] at hs
    rw [apply_step_keeps_stopped s st hs] at h
    exact Bool.false_ne_true h

/-- C7 witness: the one-shot property along a concrete step sequence. -/
theorem running_one_shot_witness :
    (([RendererStep.win .Destroyed, RendererStep.tick oom_input].foldl
        apply_step { sample_state with running := false }).running = false) :=
  (running_one_shot { sample_state with running := false }
    [RendererStep.win .Destroyed, RendererStep.tick oom_input]).1 rfl

/-- C10: `resize_surface` returns `.ok` on every input (the fallible
window-size query is absorbed by the fallback), hence `loop_tick` and
`run_loop` never return an error through the `?` propagation sites, and
whenever the loop stops with inputs left unconsumed — i.e. exits rather
than running out of scripted ticks — the final `running` flag reads false
(the while-condition exit, or the out-of-memory `break` which stores false
first). -/
theorem loop_exit_only_by_flag :
    (∀ (inner_size : Except Unit (Nat × Nat)) (config : SurfaceConfiguration) (force : Bool),
       ∃ out, resize_surface inner_size config force = .ok out) ∧
    (∀ (s : LoopState) (inp : TickInput), ∃ r, loop_tick s inp = .ok r) ∧
    (∀ (s : LoopState) (inps : List TickInput), ∃ out, run_loop s inps = .ok out) ∧
    (∀ (s : LoopState) (inps : List TickInput) (s2 : LoopState) (rem : List TickInput),
       run_loop s inps = .ok (s2, rem) → rem ≠ [] → s2.running = false) :=
  ⟨resize_surface_isOk, loop_tick_isOk,
   fun s inps => run_loop_isOk inps s,
   fun s inps s2 rem h hne => run_loop_early_exit inps s s2 rem h hne⟩

/-- C10 witness: the early-exit characterization at a concrete halted
run. -/
theorem loop_exit_only_by_flag_witness :
    ({ sample_state with running := false } : LoopState).running = false :=
  loop_exit_only_by_flag.2.2.2 { sample_state with running := false } [oom_input]
    { sample_state with running := false } [oom_input] (by decide) (by decide)

/-- C9: startup window lookup returns the id of the first `"main"`-labelled
window when one exists; otherwise the first open window when any exists;
otherwise it fails with `NoWindowAvailable`, in which case the failure is
reported once, the render loop is never spawned, and setup still returns
`Ok` to the host. -/
theorem startup_window_lookup :
    (∀ (pre post : List (String × Nat)) (id : Nat),
       (∀ w ∈ pre, w.1 ≠ "main") →
       locate_window (pre ++ ("main", id) :: post) = .ok id) ∧
    (∀ (w : String × Nat) (rest : List (String × Nat)),
       (∀ x ∈ w :: rest, x.1 ≠ "main") →
       locate_window (w :: rest) = .ok w.2) ∧
    locate_window [] = .error .NoWindowAvailable ∧
    init_setup [] = { spawned := false, reports := 1, setup_ok := true } := by
  refine ⟨?_, ?_, rfl, rfl⟩
  · intro pre post id hpre
    have hp : ∀ w ∈ pre, (w.1 == "main") = false := by
      intro w hw
      simp only [beq_eq_false_iff_ne, ne_eq]
      exact hpre w hw
    unfold locate_window
    rw [find?_of_split _ pre ("main", id) post hp (by simp)]
  · intro w rest hall
    have hnone : (w :: rest).find? (fun w => w.1 == "main") = none := by
      rw [List.find?_eq_none]
      intro x hx
      simp only [beq_iff_eq]
      exact hall x hx
    unfold locate_window
    rw [hnone]
    rfl

/-- C9 witness: the lookup preference applied at concrete window lists. -/
theorem startup_window_lookup_witness :
    locate_window [("settings", 4), ("main", 9)] = .ok 9 ∧
    locate_window [("settings", 4), ("dock", 2)] = .ok 4 :=
  ⟨startup_window_lookup.1 [("settings", 4)] [] 9 (by decide),
   startup_window_lookup.2.1 ("settings", 4) [("dock", 2)] (by decide)⟩

end MuloomGpu
